import Mathlib

/-!
Verification development for the barney volume-rendering core
(ANARI spatial fields, procedural field samplers, Woodcock free-flight
sampling, macrocell grids).

Modelling conventions:
* Machine floats are modelled by exact rationals.  Transcendental helpers
  of the source (logf, acosf, atan2f, sqrt inside length()) are abstracted:
  either passed as explicit function arguments, or the quantities computed
  from them (a point's distance to the sphere center, its equirectangular
  uv coordinates) are taken as inputs of the sampling function, since the
  embedded branch logic depends only on those derived quantities.
* Texture lookups are abstracted as total functions representing the
  texture content.
* Diagnostics reported through reportMessage are modelled as
  severity-tagged enumeration values, one per report site.
* Fallible steps (null-pointer dereference, nontermination fuel) are
  modelled with Option.
-/

/-- Vector of three rationals, modelling vec3f / helium::float3. -/
structure Vec3 where
  x : ℚ
  y : ℚ
  z : ℚ
deriving DecidableEq, Repr

/-- Vector of four rationals, modelling vec4f. -/
structure Vec4 where
  x : ℚ
  y : ℚ
  z : ℚ
  w : ℚ
deriving DecidableEq, Repr

/-- Componentwise vector addition. -/
def Vec3.add (a b : Vec3) : Vec3 := ⟨a.x + b.x, a.y + b.y, a.z + b.z⟩

/-- Scalar multiplication of a vec3. -/
def Vec3.smul (t : ℚ) (a : Vec3) : Vec3 := ⟨t * a.x, t * a.y, t * a.z⟩

/-- Componentwise minimum. -/
def Vec3.minv (a b : Vec3) : Vec3 := ⟨min a.x b.x, min a.y b.y, min a.z b.z⟩

/-- Componentwise maximum. -/
def Vec3.maxv (a b : Vec3) : Vec3 := ⟨max a.x b.x, max a.y b.y, max a.z b.z⟩

/-- Axis-aligned box with rational corners, modelling box3 / box3f. -/
structure Box3 where
  lower : Vec3
  upper : Vec3
deriving DecidableEq, Repr

/-- Exact value of FLT_MAX, the float used by box3::invalidate. -/
def fltMax : ℚ := 340282346638528859811704183484516925440

/-- Empty (invalidated) box: lower at plus-FLT_MAX, upper at minus-FLT_MAX,
as produced by helium box3 invalidate(). -/
def Box3.empty : Box3 :=
  ⟨⟨fltMax, fltMax, fltMax⟩, ⟨-fltMax, -fltMax, -fltMax⟩⟩

/-- Box insert (extend-by): componentwise min of lowers, max of uppers,
modelling box3::insert / extend. -/
def Box3.insert (b : Box3) (o : Box3) : Box3 :=
  ⟨Vec3.minv b.lower o.lower, Vec3.maxv b.upper o.upper⟩

/-- Box containment: outer contains inner when each lower coordinate of
outer is at most the corresponding one of inner and dually for uppers. -/
def Box3.containsBox (outer inner : Box3) : Prop :=
  outer.lower.x ≤ inner.lower.x ∧ outer.lower.y ≤ inner.lower.y ∧
  outer.lower.z ≤ inner.lower.z ∧ inner.upper.x ≤ outer.upper.x ∧
  inner.upper.y ≤ outer.upper.y ∧ inner.upper.z ≤ outer.upper.z

/-- Clamp a rational into the interval from 0 to 1, modelling
clamp(x, 0.f, 1.f) = min(max(x, 0), 1). -/
def clamp01 (t : ℚ) : ℚ := min (max t 0) 1

/-- Linear interpolation between a and b with parameter t. -/
def lerp (t a b : ℚ) : ℚ := (1 - t) * a + t * b

/-! ## Embedding of src/barney/volume/Volume.h -/

/-- Device descriptor of a Volume (Volume::DD) with the scalar-field
sampler and the transfer function abstracted as functions: sfSample
models `SFSampler::DD::sample` where the result value none models a NaN
float (out-of-domain sample); xfMap models `TransferFunction::DD::map`. -/
structure VolumeDD where
  sfSample : Vec3 → Option ℚ
  xfMap : ℚ → Vec4

/-- Embedding of Volume::DD::sampleAndMap (Volume.h lines 68-75):
sample the scalar field, return the zero vec4f when the sample is NaN,
otherwise apply the transfer function. -/
def VolumeDD.sampleAndMap (dd : VolumeDD) (point : Vec3) : Vec4 :=
  match dd.sfSample point with
  | none => ⟨0, 0, 0, 0⟩
  | some f => dd.xfMap f

/-- Loop body of Woodcock::sampleRange (Volume.h lines 148-168), with
explicit state: log abstracts logf; rand is the random sequence, consumed
two draws per iteration (index i for the distance draw, i+1 for the
acceptance draw); t is the current distance along the ray; sample carries
the last written value of the sample out-parameter.  fuel bounds the
number of loop iterations; none models running out of fuel (the C++ loop
not having returned within fuel iterations).  The result carries the
returned bool, the final value of tRange.upper, and the sample
out-parameter. -/
def Woodcock.sampleRangeAux (log : ℚ → ℚ) (dd : VolumeDD) (org dir : Vec3)
    (upper majorant : ℚ) (rand : ℕ → ℚ) :
    ℕ → ℕ → ℚ → Vec4 → Option (Bool × ℚ × Vec4)
  | 0, _, _, _ => none
  | fuel + 1, i, t, sample =>
    let dt : ℚ := - log (1 - rand i) / majorant
    let t2 := t + dt
    if t2 ≥ upper then
      some (false, upper, sample)
    else
      let P := Vec3.add org (Vec3.smul t2 dir)
      let s := VolumeDD.sampleAndMap dd P
      if s.w ≥ rand (i + 1) * majorant then
        some (true, t2, s)
      else
        Woodcock.sampleRangeAux log dd org dir upper majorant rand fuel (i + 2) t2 s

/-- Embedding of Woodcock::sampleRange: start at t = tRange.lower with an
uninitialized sample out-parameter (modelled as zero). -/
def Woodcock.sampleRange (log : ℚ → ℚ) (dd : VolumeDD) (org dir : Vec3)
    (tLower tUpper majorant : ℚ) (rand : ℕ → ℚ) (fuel : ℕ) :
    Option (Bool × ℚ × Vec4) :=
  Woodcock.sampleRangeAux log dd org dir tUpper majorant rand fuel 0 tLower ⟨0, 0, 0, 0⟩

/-! ## Embedding of src/barney/volume/CloudField.h -/

/-- Device descriptor of the cloud sampler (CloudSampler::DD): the 3D/2D
cloud texture lookup is abstracted as a function of the equirectangular
uv coordinates (the source currently samples tex2D with uv only). -/
structure CloudSamplerDD where
  cloudDataTex : ℚ → ℚ → ℚ
  sphereRadius : ℚ
  maxHeight : ℚ

/-- Embedding of CloudSampler::DD::sample (CloudField.h lines 109-145).
The source computes dist = length(P - sphereCenter) and the spherical
uv projection of the direction; since the branch logic depends on the
point only through these derived quantities (dist, u, v), they are taken
as inputs (dist is nonnegative for every actual point P). -/
def CloudSamplerDD.sample (dd : CloudSamplerDD) (dist u v : ℚ) : ℚ :=
  let height := max 0 (dist - dd.sphereRadius)
  let normalizedHeight := clamp01 (height / dd.maxHeight)
  if dist < dd.sphereRadius ∨ normalizedHeight ≥ 1 then 0
  else dd.cloudDataTex u v

/-! ## Embedding of src/barney/volume/PlanetField.h -/

/-- Device descriptor of the planet sampler (PlanetSampler::DD) with the
elevation texture abstracted as a function of the uv coordinates. -/
structure PlanetSamplerDD where
  elevationTex : ℚ → ℚ → ℚ
  elevationScale : ℚ
  planetRadius : ℚ

/-- Embedding of PlanetSampler::DD::sample (PlanetField.h lines 114-153).
As for the cloud sampler, dist = length(P) and the uv projection are the
inputs the branch logic depends on.  The layer thresholds are the literal
constants of the source: innerCoreRadius = 0.127, outterCoreRadius =
0.127 + 0.220, mantleRadius = 0.127 + 0.220 + 0.285. -/
def PlanetSamplerDD.sample (dd : PlanetSamplerDD) (dist u v : ℚ) : ℚ :=
  let elevation := dd.elevationTex u v
  let innerCoreRadius : ℚ := 127 / 1000
  let outterCoreRadius : ℚ := innerCoreRadius + 220 / 1000
  let mantleRadius : ℚ := outterCoreRadius + 285 / 1000
  let surfaceElevation := dd.planetRadius + dd.elevationScale * elevation
  if dist < innerCoreRadius then 2 / 100
  else if dist < outterCoreRadius then 4 / 100
  else if dist < mantleRadius then 6 / 100
  else if dist < dd.planetRadius then 8 / 10
  else if dist ≥ dd.planetRadius ∧ dist < surfaceElevation then
    1 / 10 + 8 / 10 * elevation
  else 0

/-! ## Embedding of src/anari/SpatialField.h and src/anari/SpatialField.cpp -/

/-- ANARI element types relevant to the embedded validation code. -/
inductive AType where
  | float32Vec3
  | float32
  | uint8
  | uint32
  | uint64
  | otherTy
deriving DecidableEq, Repr

/-- Severity of a reported diagnostic (ANARI_SEVERITY_WARNING / ERROR). -/
inductive Severity where
  | warning
  | error
deriving DecidableEq, Repr

/-- One tag per reportMessage call site in the embedded code. -/
inductive Diag where
  | missingStructuredData
  | missingVertexPosition
  | badVertexPositionType
  | missingVertexOrCellData
  | bothVertexAndCellData
  | missingIndex
  | missingCellType
  | missingCellBegin
  | only32BitIndicesOnIndex
  | indexWrongElementType
  | only32BitIndicesOnCellBegin
  | cellBeginWrongElementType
deriving DecidableEq, Repr

/-- A reported diagnostic message. -/
structure Msg where
  severity : Severity
  diag : Diag
deriving DecidableEq, Repr

/-- Descriptor of a helium 3D array parameter: element type and 3D size.
The payload values are not needed by the embedded claims. -/
structure Array3DDesc where
  elementType : AType
  dims : Vec3
deriving DecidableEq, Repr

/-- Parameter store of a structuredRegular field as read by
StructuredRegularField::commitParameters: getParamObject("data") yields
none when the parameter is absent, getParam supplies defaults for origin
and spacing. -/
structure SRParamStore where
  data : Option Array3DDesc
  origin : Option Vec3
  spacing : Option Vec3
deriving DecidableEq, Repr

/-- Committed state of a StructuredRegularField. -/
structure SRState where
  mData : Option Array3DDesc
  mOrigin : Vec3
  mSpacing : Vec3
  mDims : Vec3
  mCoordUpperBound : Vec3
deriving DecidableEq, Repr

/-- Embedding of StructuredRegularField::commitParameters
(SpatialField.cpp lines 49-56).  The source unconditionally evaluates
m_data->size() after m_data = getParamObject("data"); when the 'data'
parameter is absent m_data is a null pointer and the dereference is a
crash (undefined behavior), modelled as none. -/
def StructuredRegularField.commitParameters (ps : SRParamStore) (s : SRState) :
    Option SRState :=
  let mData := ps.data
  let mOrigin := ps.origin.getD ⟨0, 0, 0⟩
  let mSpacing := ps.spacing.getD ⟨1, 1, 1⟩
  match mData with
  | none => none
  | some arr =>
    some { s with
      mData := some arr
      mOrigin := mOrigin
      mSpacing := mSpacing
      mDims := arr.dims }

/-- Embedding of StructuredRegularField::finalize (SpatialField.cpp lines
58-70): when m_data is absent, report a warning and return early;
otherwise compute m_coordUpperBound from the dims.  The float-specific
nextafterf(dims-1, 0) is modelled as dims-1 (its exact value is not used
by any embedded claim). -/
def StructuredRegularField.finalize (s : SRState) : List Msg × SRState :=
  match s.mData with
  | none => ([⟨Severity.warning, Diag.missingStructuredData⟩], s)
  | some arr =>
    ([], { s with mCoordUpperBound :=
      ⟨arr.dims.x - 1, arr.dims.y - 1, arr.dims.z - 1⟩ })

/-- Embedding of StructuredRegularField::isValid (SpatialField.cpp lines
72-75): true iff m_data is present. -/
def StructuredRegularField.isValid (s : SRState) : Bool :=
  s.mData.isSome

/-- Embedding of StructuredRegularField::bounds (SpatialField.cpp lines
127-132): origin to origin + (dims-1) * spacing when valid, the empty box
otherwise. -/
def StructuredRegularField.bounds (s : SRState) : Box3 :=
  if StructuredRegularField.isValid s then
    ⟨s.mOrigin,
     ⟨s.mOrigin.x + (s.mDims.x - 1) * s.mSpacing.x,
      s.mOrigin.y + (s.mDims.y - 1) * s.mSpacing.y,
      s.mOrigin.z + (s.mDims.z - 1) * s.mSpacing.z⟩⟩
  else Box3.empty

/-- Committed parameters of an UnstructuredField (SpatialField.h lines
62-71).  vertexPosition carries its element type and the positions;
for the other arrays only presence and element type are consumed by the
embedded validation code. -/
structure UParams where
  vertexPosition : Option (AType × List Vec3)
  vertexData : Option AType
  cellData : Option AType
  index : Option AType
  cellType : Option AType
  cellBegin : Option AType
deriving DecidableEq, Repr

/-- Result of UnstructuredField::finalize: the reported diagnostics in
order, whether the function ran to its closing brace (false when it hit
one of the early `return` statements), and the final value of the
m_bounds member given its value before the call. -/
structure UResult where
  msgs : List Msg
  ranToCompletion : Bool
  mBounds : Box3
deriving DecidableEq, Repr

/-- World bounds of a vertex list: invalidate then insert every vertex
(SpatialField.cpp lines 199-211). -/
def vertexBounds (verts : List Vec3) : Box3 :=
  verts.foldl (fun b p => Box3.insert b ⟨p, p⟩) Box3.empty

/-- Embedding of UnstructuredField::finalize (SpatialField.cpp lines
152-237), mirroring its guard sequence.  Note the two UINT64 branches
(lines 217-220 and 228-231) report an error-severity diagnostic but do
not return: control falls through and the function runs to completion. -/
def UnstructuredField.finalize (p : UParams) (bounds0 : Box3) : UResult :=
  match p.vertexPosition with
  | none => ⟨[⟨Severity.warning, Diag.missingVertexPosition⟩], false, bounds0⟩
  | some (posTy, verts) =>
    if posTy ≠ AType.float32Vec3 then
      ⟨[⟨Severity.warning, Diag.badVertexPositionType⟩], false, bounds0⟩
    else if p.vertexData = none ∧ p.cellData = none then
      ⟨[⟨Severity.warning, Diag.missingVertexOrCellData⟩], false, bounds0⟩
    else if p.vertexData ≠ none ∧ p.cellData ≠ none then
      ⟨[⟨Severity.warning, Diag.bothVertexAndCellData⟩], false, bounds0⟩
    else if p.index = none then
      ⟨[⟨Severity.warning, Diag.missingIndex⟩], false, bounds0⟩
    else if p.cellType = none then
      ⟨[⟨Severity.warning, Diag.missingCellType⟩], false, bounds0⟩
    else if p.cellBegin = none then
      ⟨[⟨Severity.warning, Diag.missingCellBegin⟩], false, bounds0⟩
    else
      let newBounds := vertexBounds verts
      let idxMsgs : List Msg × Bool :=
        if p.index = some AType.uint32 then ([], true)
        else if p.index = some AType.uint64 then
          ([⟨Severity.error, Diag.only32BitIndicesOnIndex⟩], true)
        else ([⟨Severity.error, Diag.indexWrongElementType⟩], false)
      if idxMsgs.2 = false then ⟨idxMsgs.1, false, newBounds⟩
      else
        let cbMsgs : List Msg × Bool :=
          if p.cellBegin = some AType.uint32 then ([], true)
          else if p.cellBegin = some AType.uint64 then
            ([⟨Severity.error, Diag.only32BitIndicesOnCellBegin⟩], true)
          else ([⟨Severity.error, Diag.cellBeginWrongElementType⟩], false)
        if cbMsgs.2 = false then ⟨idxMsgs.1 ++ cbMsgs.1, false, newBounds⟩
        else ⟨idxMsgs.1 ++ cbMsgs.1, true, newBounds⟩

/-- Modelled from the spec: the generic Object::isValid default used by
UnstructuredField (which does not override isValid; the Object base class
is not part of the sources).  Spec section 4.1: isValid() is true iff
finalize succeeded with all required inputs present and well-typed —
i.e. iff finalize ran to completion without an early validation return. -/
def UnstructuredField.isValidModelled (r : UResult) : Bool :=
  r.ranToCompletion

/-- Integer 3D vector, modelling math::int3 inside box3i. -/
structure Vec3i where
  x : ℤ
  y : ℤ
  z : ℤ
deriving DecidableEq, Repr

/-- One AMR block as committed to a BlockStructuredField: integer-space
bounds (box3i), refinement level, and the dense scalar payload already
listed in the x-fastest linear order used by the flattening loop. -/
structure AMRBlock where
  lowerBound : Vec3i
  upperBound : Vec3i
  level : ℕ
  data : List ℚ
deriving DecidableEq, Repr

/-- Flattened per-block arrays and accumulated bounds produced by
BlockStructuredField::finalize. -/
structure AMRState where
  generatedBlockBounds : List ℤ
  generatedBlockLevels : List ℕ
  generatedBlockOffsets : List ℕ
  generatedBlockScalars : List ℚ
  mBounds : Box3
deriving DecidableEq, Repr

/-- World-space box of one block as computed at SpatialField.cpp lines
377-383: lower * (1 shl level) to (upper + 1) * (1 shl level), cast to
float. -/
def AMRBlock.worldBounds (b : AMRBlock) : Box3 :=
  ⟨⟨(b.lowerBound.x * 2 ^ b.level : ℤ),
    (b.lowerBound.y * 2 ^ b.level : ℤ),
    (b.lowerBound.z * 2 ^ b.level : ℤ)⟩,
   ⟨((b.upperBound.x + 1) * 2 ^ b.level : ℤ),
    ((b.upperBound.y + 1) * 2 ^ b.level : ℤ),
    ((b.upperBound.z + 1) * 2 ^ b.level : ℤ)⟩⟩

/-- Per-block body of the finalize loop (SpatialField.cpp lines 354-385):
push the six bound ints, the level, the running scalar offset, append the
block payload, and insert the block's world bounds into m_bounds. -/
def BlockStructuredField.finalizeStep (st : AMRState) (b : AMRBlock) : AMRState :=
  { generatedBlockBounds := st.generatedBlockBounds ++
      [b.lowerBound.x, b.lowerBound.y, b.lowerBound.z,
       b.upperBound.x, b.upperBound.y, b.upperBound.z]
    generatedBlockLevels := st.generatedBlockLevels ++ [b.level]
    generatedBlockOffsets := st.generatedBlockOffsets ++
      [st.generatedBlockScalars.length]
    generatedBlockScalars := st.generatedBlockScalars ++ b.data
    mBounds := Box3.insert st.mBounds (AMRBlock.worldBounds b) }

/-- Embedding of BlockStructuredField::finalize (SpatialField.cpp lines
342-386) for the case where the three required block parameters are
present: clear the generated arrays, invalidate m_bounds, then run the
per-block loop. -/
def BlockStructuredField.finalize (blocks : List AMRBlock) : AMRState :=
  blocks.foldl BlockStructuredField.finalizeStep
    ⟨[], [], [], [], Box3.empty⟩

/-- Embedding of BlockStructuredField::bounds (SpatialField.cpp lines
411-414): return the m_bounds member. -/
def BlockStructuredField.bounds (st : AMRState) : Box3 :=
  st.mBounds

/-- Statement of the spec sentence for C7, written from the spec words:
the union, over all blocks, of each block's integer bounds scaled by
2 to the level (lower * 2^level to (upper+1) * 2^level). -/
def specUnionOfScaledBlockBounds (blocks : List AMRBlock) : Box3 :=
  blocks.foldl (fun acc b => Box3.insert acc (AMRBlock.worldBounds b)) Box3.empty

/-- State shared by every SpatialField subtype (SpatialField.h lines
15-47): the validity flag abstracts the subtype's isValid(), and
m_bnField is the cached backend handle (none models the null handle).
Backend handles are identified by numbers. -/
structure SFState where
  valid : Bool
  mBnField : Option ℕ
deriving DecidableEq, Repr

/-- Embedding of SpatialField::getBarneyScalarField (SpatialField.h lines
35-42): return the null handle when invalid; otherwise create and cache
the backend field on first use, and return the cached handle afterwards.
The handle a call to createBarneyScalarField would produce is passed in
as fresh. -/
def SpatialField.getBarneyScalarField (fresh : ℕ) (s : SFState) :
    Option ℕ × SFState :=
  if s.valid = false then (none, s)
  else
    match s.mBnField with
    | none => (some fresh, { s with mBnField := some fresh })
    | some h => (some h, s)

/-- Committed state of a CloudSpatialField (SpatialField.h lines 158-183
and SpatialField.cpp lines 500-522).  cloudData holds the identity of the
committed array object (pointer equality is what the change check
compares). -/
structure CloudSFState where
  cloudData : Option ℕ
  planetRadius : ℚ
  atmosphereThickness : ℚ
  mBnField : Option ℕ
deriving DecidableEq, Repr

/-- Parameter store of a cloud field: getParamObject("cloudData") and the
two float parameters with their defaults DEFAULT_PLANET_RADIUS = 0.9 and
DEFAULT_ATMOSPHERE_THICKNESS = 0.01. -/
structure CloudParamStore where
  cloudData : Option ℕ
  planetRadius : Option ℚ
  atmosphereThickness : Option ℚ
deriving DecidableEq, Repr

/-- Embedding of CloudSpatialField::commitParameters (SpatialField.cpp
lines 502-522): read the new parameter values, and release the cached
backend field (cleanup(), SpatialField.h lines 27-33) only when at least
one of them differs from the previously committed value. -/
def CloudSpatialField.commitParameters (ps : CloudParamStore)
    (s : CloudSFState) : CloudSFState :=
  let prevCloudData := s.cloudData
  let prevPlanetRadius := s.planetRadius
  let prevAtmosphereThickness := s.atmosphereThickness
  let newCloudData := ps.cloudData
  let newPlanetRadius := ps.planetRadius.getD (9 / 10)
  let newAtmosphereThickness := ps.atmosphereThickness.getD (1 / 100)
  let s2 : CloudSFState :=
    { cloudData := newCloudData
      planetRadius := newPlanetRadius
      atmosphereThickness := newAtmosphereThickness
      mBnField := s.mBnField }
  if prevCloudData ≠ newCloudData ∨ prevPlanetRadius ≠ newPlanetRadius ∨
      prevAtmosphereThickness ≠ newAtmosphereThickness then
    { s2 with mBnField := none }
  else s2

/-! ## Macrocell grid and transfer function

The MCGrid build kernels, the in-barney ScalarField samplers for grid and
mesh fields, and the TransferFunction are part of this repository but not
among the given sources (Volume.h includes barney/volume/ScalarField.h
and barney/volume/TransferFunction.h, CloudField.h includes
barney/volume/MCAccelerator.h; those files are absent).  The definitions
below are therefore modelled from the spec, sections 3, 4.2 and 4.6, as
flagged in each doc comment. -/

/-- Maximum of g over the naturals 0..n. -/
def foldMaxN (g : ℕ → ℚ) : ℕ → ℚ
  | 0 => g 0
  | n + 1 => max (foldMaxN g n) (g (n + 1))

/-- Minimum of g over the naturals 0..n. -/
def foldMinN (g : ℕ → ℚ) : ℕ → ℚ
  | 0 => g 0
  | n + 1 => min (foldMinN g n) (g (n + 1))

/-- Maximum of g over the window lo..hi (hi inclusive; equals g lo when
the window is degenerate). -/
def foldMaxW (g : ℕ → ℚ) (lo hi : ℕ) : ℚ :=
  foldMaxN (fun k => g (lo + k)) (hi - lo)

/-- Minimum of g over the window lo..hi. -/
def foldMinW (g : ℕ → ℚ) (lo hi : ℕ) : ℚ :=
  foldMinN (fun k => g (lo + k)) (hi - lo)

/-- Modelled from the spec (section 4.2): trilinear interpolation of a
dense scalar lattice f at the point inside lattice cell (i, j, k) with
fractional offsets (tx, ty, tz) in 0..1. -/
def trilinear (f : ℕ → ℕ → ℕ → ℚ) (i j k : ℕ) (tx ty tz : ℚ) : ℚ :=
  lerp tz
    (lerp ty (lerp tx (f i j k) (f (i + 1) j k))
             (lerp tx (f i (j + 1) k) (f (i + 1) (j + 1) k)))
    (lerp ty (lerp tx (f i j (k + 1)) (f (i + 1) j (k + 1)))
             (lerp tx (f i (j + 1) (k + 1)) (f (i + 1) (j + 1) (k + 1))))

/-- Modelled from the spec (section 4.6, grid-backed macrocell ranges):
the recorded minimum of a macrocell covering the lattice corners x0..x1,
y0..y1, z0..z1 is the minimum of the dense array over that region. -/
def mcMin (f : ℕ → ℕ → ℕ → ℚ) (x0 x1 y0 y1 z0 z1 : ℕ) : ℚ :=
  foldMinW (fun x => foldMinW (fun y => foldMinW (fun z => f x y z) z0 z1) y0 y1) x0 x1

/-- Modelled from the spec (section 4.6): recorded macrocell maximum,
dual to mcMin. -/
def mcMax (f : ℕ → ℕ → ℕ → ℚ) (x0 x1 y0 y1 z0 z1 : ℕ) : ℚ :=
  foldMaxW (fun x => foldMaxW (fun y => foldMaxW (fun z => f x y z) z0 z1) y0 y1) x0 x1

/-- Scalar values at the four corners of a tetrahedral element
(mesh-backed fields, spec sections 3 and 4.3). -/
structure TetScalars where
  v0 : ℚ
  v1 : ℚ
  v2 : ℚ
  v3 : ℚ
deriving DecidableEq, Repr

/-- Modelled from the spec (section 4.3): barycentric interpolation of
the four vertex scalars of a tetrahedron with weights l0..l3. -/
def tetInterp (p : TetScalars) (l0 l1 l2 l3 : ℚ) : ℚ :=
  l0 * p.v0 + l1 * p.v1 + l2 * p.v2 + l3 * p.v3

/-- Smallest scalar of one tetrahedron. -/
def TetScalars.minVal (p : TetScalars) : ℚ :=
  min (min p.v0 p.v1) (min p.v2 p.v3)

/-- Largest scalar of one tetrahedron. -/
def TetScalars.maxVal (p : TetScalars) : ℚ :=
  max (max p.v0 p.v1) (max p.v2 p.v3)

/-- Modelled from the spec (section 4.6, mesh-backed macrocell ranges):
rasterizing/binning the primitives into a macrocell records, as the cell
minimum, the smallest scalar among the primitives binned into it. -/
def meshCellMin (prims : List TetScalars) : ℚ :=
  match prims with
  | [] => 0
  | p :: rest => rest.foldl (fun m q => min m (TetScalars.minVal q)) (TetScalars.minVal p)

/-- Mesh-backed macrocell maximum, dual to meshCellMin. -/
def meshCellMax (prims : List TetScalars) : ℚ :=
  match prims with
  | [] => 0
  | p :: rest => rest.foldl (fun m q => max m (TetScalars.maxVal q)) (TetScalars.maxVal p)

/-- Modelled from the spec (section 3, TransferFunction): a 1D domain
interval loDomain..hiDomain, numValues linearly interpolated opacity
control values (values i for i below numValues), and a base density
scale. -/
structure XF where
  numValues : ℕ
  values : ℕ → ℚ
  loDomain : ℚ
  hiDomain : ℚ
  baseDensity : ℚ

/-- Relative control-point coordinate of a scalar f in the transfer
domain: the domain-normalized position clamped to 0..1, scaled to the
control-point index range 0..numValues-1. -/
def XF.rel (xf : XF) (f : ℚ) : ℚ :=
  clamp01 ((f - xf.loDomain) / (xf.hiDomain - xf.loDomain)) * ((xf.numValues - 1 : ℕ) : ℚ)

/-- Control value at a clamped index. -/
def XF.valueAt (xf : XF) (n : ℕ) : ℚ :=
  xf.values (min n (xf.numValues - 1))

/-- Modelled from the spec (section 3): the opacity contribution of a
scalar value f is the piecewise-linear interpolation of the control
values at the relative coordinate of f, scaled by the base density. -/
def XF.mapOpacity (xf : XF) (f : ℚ) : ℚ :=
  let t := XF.rel xf f
  let i : ℕ := Int.toNat ⌊t⌋
  xf.baseDensity * lerp (t - (i : ℚ)) (XF.valueAt xf i) (XF.valueAt xf (i + 1))

/-- Modelled from the spec (sections 3 and 4.6): the majorant of a
macrocell whose recorded value range is a..b is the base density times
the largest control value over the control points adjacent to any scalar
in a..b, i.e. over the index window floor(rel a)..floor(rel b)+1. -/
def XF.cellMajorant (xf : XF) (a b : ℚ) : ℚ :=
  xf.baseDensity *
    foldMaxW (fun n => XF.valueAt xf n)
      (Int.toNat ⌊XF.rel xf a⌋) (Int.toNat ⌊XF.rel xf b⌋ + 1)

/-- Modelled from the spec (section 4.6, majorant query): the majorant of
a ray segment is the maximum, over the macrocells overlapped by the
segment (given by their recorded value ranges), of the per-cell
transfer-function majorant; zero when no cell overlaps. -/
def segmentMajorant (xf : XF) (cells : List (ℚ × ℚ)) : ℚ :=
  cells.foldl (fun m ab => max m (XF.cellMajorant xf ab.1 ab.2)) 0

/-! ## Helper lemmas -/

theorem lerp_mem (t a b lo hi : ℚ) (ht0 : 0 ≤ t) (ht1 : t ≤ 1)
    (ha0 : lo ≤ a) (ha1 : a ≤ hi) (hb0 : lo ≤ b) (hb1 : b ≤ hi) :
    lo ≤ lerp t a b ∧ lerp t a b ≤ hi := by
  unfold lerp
  constructor
  · nlinarith
  · nlinarith

theorem lerp_le_max (t a b : ℚ) (ht0 : 0 ≤ t) (ht1 : t ≤ 1) :
    lerp t a b ≤ max a b := by
  have h := lerp_mem t a b (min a b) (max a b) ht0 ht1
    (min_le_left _ _) (le_max_left _ _) (min_le_right _ _) (le_max_right _ _)
  exact h.2

theorem foldMaxN_le_bound (g : ℕ → ℚ) (n : ℕ) (hi : ℚ)
    (h : ∀ k, k ≤ n → g k ≤ hi) : foldMaxN g n ≤ hi := by
  induction n with
  | zero => exact h 0 (le_refl 0)
  | succ m ih =>
    unfold foldMaxN
    exact max_le (ih fun k hk => h k (Nat.le_succ_of_le hk)) (h (m + 1) (le_refl _))

theorem le_foldMaxN (g : ℕ → ℚ) (n k : ℕ) (hk : k ≤ n) : g k ≤ foldMaxN g n := by
  induction n with
  | zero =>
    have : k = 0 := Nat.le_zero.mp hk
    subst this
    exact le_refl _
  | succ m ih =>
    unfold foldMaxN
    rcases Nat.lt_or_ge k (m + 1) with h | h
    · exact le_trans (ih (Nat.lt_succ_iff.mp h)) (le_max_left _ _)
    · have : k = m + 1 := le_antisymm hk h
      subst this
      exact le_max_right _ _

theorem foldMinN_le (g : ℕ → ℚ) (n k : ℕ) (hk : k ≤ n) : foldMinN g n ≤ g k := by
  induction n with
  | zero =>
    have : k = 0 := Nat.le_zero.mp hk
    subst this
    exact le_refl _
  | succ m ih =>
    unfold foldMinN
    rcases Nat.lt_or_ge k (m + 1) with h | h
    · exact le_trans (min_le_left _ _) (ih (Nat.lt_succ_iff.mp h))
    · have : k = m + 1 := le_antisymm hk h
      subst this
      exact min_le_right _ _

theorem le_foldMaxW (g : ℕ → ℚ) (lo hi m : ℕ) (h1 : lo ≤ m) (h2 : m ≤ hi) :
    g m ≤ foldMaxW g lo hi := by
  unfold foldMaxW
  have hk : m - lo ≤ hi - lo := Nat.sub_le_sub_right h2 lo
  have := le_foldMaxN (fun k => g (lo + k)) (hi - lo) (m - lo) hk
  simpa [Nat.add_sub_cancel' h1] using this

theorem foldMinW_le (g : ℕ → ℚ) (lo hi m : ℕ) (h1 : lo ≤ m) (h2 : m ≤ hi) :
    foldMinW g lo hi ≤ g m := by
  unfold foldMinW
  have hk : m - lo ≤ hi - lo := Nat.sub_le_sub_right h2 lo
  have := foldMinN_le (fun k => g (lo + k)) (hi - lo) (m - lo) hk
  simpa [Nat.add_sub_cancel' h1] using this

theorem mcMin_le_corner (f : ℕ → ℕ → ℕ → ℚ) (x0 x1 y0 y1 z0 z1 x y z : ℕ)
    (hx0 : x0 ≤ x) (hx1 : x ≤ x1) (hy0 : y0 ≤ y) (hy1 : y ≤ y1)
    (hz0 : z0 ≤ z) (hz1 : z ≤ z1) :
    mcMin f x0 x1 y0 y1 z0 z1 ≤ f x y z := by
  unfold mcMin
  refine le_trans (foldMinW_le _ x0 x1 x hx0 hx1) ?_
  refine le_trans (foldMinW_le _ y0 y1 y hy0 hy1) ?_
  exact foldMinW_le _ z0 z1 z hz0 hz1

theorem corner_le_mcMax (f : ℕ → ℕ → ℕ → ℚ) (x0 x1 y0 y1 z0 z1 x y z : ℕ)
    (hx0 : x0 ≤ x) (hx1 : x ≤ x1) (hy0 : y0 ≤ y) (hy1 : y ≤ y1)
    (hz0 : z0 ≤ z) (hz1 : z ≤ z1) :
    f x y z ≤ mcMax f x0 x1 y0 y1 z0 z1 := by
  unfold mcMax
  refine le_trans ?_ (le_foldMaxW _ x0 x1 x hx0 hx1)
  refine le_trans ?_ (le_foldMaxW _ y0 y1 y hy0 hy1)
  exact le_foldMaxW _ z0 z1 z hz0 hz1

theorem trilinear_bounds (f : ℕ → ℕ → ℕ → ℚ) (x0 x1 y0 y1 z0 z1 i j k : ℕ)
    (tx ty tz : ℚ)
    (hix : x0 ≤ i) (hix1 : i + 1 ≤ x1) (hjy : y0 ≤ j) (hjy1 : j + 1 ≤ y1)
    (hkz : z0 ≤ k) (hkz1 : k + 1 ≤ z1)
    (htx0 : 0 ≤ tx) (htx1 : tx ≤ 1) (hty0 : 0 ≤ ty) (hty1 : ty ≤ 1)
    (htz0 : 0 ≤ tz) (htz1 : tz ≤ 1) :
    mcMin f x0 x1 y0 y1 z0 z1 ≤ trilinear f i j k tx ty tz ∧
    trilinear f i j k tx ty tz ≤ mcMax f x0 x1 y0 y1 z0 z1 := by
  have hii : i ≤ x1 := Nat.le_of_succ_le hix1
  have hjj : j ≤ y1 := Nat.le_of_succ_le hjy1
  have hkk : k ≤ z1 := Nat.le_of_succ_le hkz1
  have hix2 : x0 ≤ i + 1 := Nat.le_succ_of_le hix
  have hjy2 : y0 ≤ j + 1 := Nat.le_succ_of_le hjy
  have hkz2 : z0 ≤ k + 1 := Nat.le_succ_of_le hkz
  have hcor : ∀ x y z, x0 ≤ x → x ≤ x1 → y0 ≤ y → y ≤ y1 → z0 ≤ z → z ≤ z1 →
      mcMin f x0 x1 y0 y1 z0 z1 ≤ f x y z ∧
      f x y z ≤ mcMax f x0 x1 y0 y1 z0 z1 :=
    fun x y z a b c d e g =>
      ⟨mcMin_le_corner f x0 x1 y0 y1 z0 z1 x y z a b c d e g,
       corner_le_mcMax f x0 x1 y0 y1 z0 z1 x y z a b c d e g⟩
  have h000 := hcor i j k hix hii hjy hjj hkz hkk
  have h100 := hcor (i + 1) j k hix2 hix1 hjy hjj hkz hkk
  have h010 := hcor i (j + 1) k hix hii hjy2 hjy1 hkz hkk
  have h110 := hcor (i + 1) (j + 1) k hix2 hix1 hjy2 hjy1 hkz hkk
  have h001 := hcor i j (k + 1) hix hii hjy hjj hkz2 hkz1
  have h101 := hcor (i + 1) j (k + 1) hix2 hix1 hjy hjj hkz2 hkz1
  have h011 := hcor i (j + 1) (k + 1) hix hii hjy2 hjy1 hkz2 hkz1
  have h111 := hcor (i + 1) (j + 1) (k + 1) hix2 hix1 hjy2 hjy1 hkz2 hkz1
  have a0 := lerp_mem tx _ _ _ _ htx0 htx1 h000.1 h000.2 h100.1 h100.2
  have a1 := lerp_mem tx _ _ _ _ htx0 htx1 h010.1 h010.2 h110.1 h110.2
  have a2 := lerp_mem tx _ _ _ _ htx0 htx1 h001.1 h001.2 h101.1 h101.2
  have a3 := lerp_mem tx _ _ _ _ htx0 htx1 h011.1 h011.2 h111.1 h111.2
  have b0 := lerp_mem ty _ _ _ _ hty0 hty1 a0.1 a0.2 a1.1 a1.2
  have b1 := lerp_mem ty _ _ _ _ hty0 hty1 a2.1 a2.2 a3.1 a3.2
  have c0 := lerp_mem tz _ _ _ _ htz0 htz1 b0.1 b0.2 b1.1 b1.2
  exact c0

theorem le_foldl_max_init {α : Type} (f : α → ℚ) (l : List α) :
    ∀ a : ℚ, a ≤ l.foldl (fun m q => max m (f q)) a := by
  induction l with
  | nil => intro a; exact le_refl a
  | cons x xs ih => intro a; exact le_trans (le_max_left _ _) (ih (max a (f x)))

theorem foldl_max_mem {α : Type} (f : α → ℚ) (l : List α) :
    ∀ (a : ℚ) (x : α), x ∈ l → f x ≤ l.foldl (fun m q => max m (f q)) a := by
  induction l with
  | nil => intro a x hx; cases hx
  | cons y ys ih =>
    intro a x hx
    rcases List.mem_cons.mp hx with h | h
    · subst h
      exact le_trans (le_max_right _ _) (le_foldl_max_init f ys (max a (f x)))
    · exact ih (max a (f y)) x h

theorem foldl_min_init_le {α : Type} (f : α → ℚ) (l : List α) :
    ∀ a : ℚ, l.foldl (fun m q => min m (f q)) a ≤ a := by
  induction l with
  | nil => intro a; exact le_refl a
  | cons x xs ih => intro a; exact le_trans (ih (min a (f x))) (min_le_left _ _)

theorem foldl_min_mem {α : Type} (f : α → ℚ) (l : List α) :
    ∀ (a : ℚ) (x : α), x ∈ l → l.foldl (fun m q => min m (f q)) a ≤ f x := by
  induction l with
  | nil => intro a x hx; cases hx
  | cons y ys ih =>
    intro a x hx
    rcases List.mem_cons.mp hx with h | h
    · subst h
      exact le_trans (foldl_min_init_le f ys (min a (f x))) (min_le_right _ _)
    · exact ih (min a (f y)) x h

theorem meshCellMin_le (prims : List TetScalars) (p : TetScalars)
    (hp : p ∈ prims) : meshCellMin prims ≤ TetScalars.minVal p := by
  match prims, hp with
  | q :: rest, hp =>
    unfold meshCellMin
    rcases List.mem_cons.mp hp with h | h
    · subst h
      exact foldl_min_init_le TetScalars.minVal rest _
    · exact foldl_min_mem TetScalars.minVal rest _ p h

theorem le_meshCellMax (prims : List TetScalars) (p : TetScalars)
    (hp : p ∈ prims) : TetScalars.maxVal p ≤ meshCellMax prims := by
  match prims, hp with
  | q :: rest, hp =>
    unfold meshCellMax
    rcases List.mem_cons.mp hp with h | h
    · subst h
      exact le_foldl_max_init TetScalars.maxVal rest _
    · exact foldl_max_mem TetScalars.maxVal rest _ p h

theorem tetInterp_bounds (p : TetScalars) (l0 l1 l2 l3 : ℚ)
    (h0 : 0 ≤ l0) (h1 : 0 ≤ l1) (h2 : 0 ≤ l2) (h3 : 0 ≤ l3)
    (hsum : l0 + l1 + l2 + l3 = 1) :
    TetScalars.minVal p ≤ tetInterp p l0 l1 l2 l3 ∧
    tetInterp p l0 l1 l2 l3 ≤ TetScalars.maxVal p := by
  have m0 : TetScalars.minVal p ≤ p.v0 :=
    le_trans (min_le_left _ _) (min_le_left _ _)
  have m1 : TetScalars.minVal p ≤ p.v1 :=
    le_trans (min_le_left _ _) (min_le_right _ _)
  have m2 : TetScalars.minVal p ≤ p.v2 :=
    le_trans (min_le_right _ _) (min_le_left _ _)
  have m3 : TetScalars.minVal p ≤ p.v3 :=
    le_trans (min_le_right _ _) (min_le_right _ _)
  have x0 : p.v0 ≤ TetScalars.maxVal p :=
    le_trans (le_max_left _ _) (le_max_left _ _)
  have x1 : p.v1 ≤ TetScalars.maxVal p :=
    le_trans (le_max_right _ _) (le_max_left _ _)
  have x2 : p.v2 ≤ TetScalars.maxVal p :=
    le_trans (le_max_left _ _) (le_max_right _ _)
  have x3 : p.v3 ≤ TetScalars.maxVal p :=
    le_trans (le_max_right _ _) (le_max_right _ _)
  unfold tetInterp
  constructor
  · have e1 : TetScalars.minVal p = l0 * TetScalars.minVal p +
        l1 * TetScalars.minVal p + l2 * TetScalars.minVal p +
        l3 * TetScalars.minVal p := by
      have : (l0 + l1 + l2 + l3) * TetScalars.minVal p = TetScalars.minVal p := by
        rw [hsum]; ring
      linarith [this]
    rw [e1]
    have g0 := mul_le_mul_of_nonneg_left m0 h0
    have g1 := mul_le_mul_of_nonneg_left m1 h1
    have g2 := mul_le_mul_of_nonneg_left m2 h2
    have g3 := mul_le_mul_of_nonneg_left m3 h3
    linarith
  · have e1 : TetScalars.maxVal p = l0 * TetScalars.maxVal p +
        l1 * TetScalars.maxVal p + l2 * TetScalars.maxVal p +
        l3 * TetScalars.maxVal p := by
      have : (l0 + l1 + l2 + l3) * TetScalars.maxVal p = TetScalars.maxVal p := by
        rw [hsum]; ring
      linarith [this]
    rw [e1]
    have g0 := mul_le_mul_of_nonneg_left x0 h0
    have g1 := mul_le_mul_of_nonneg_left x1 h1
    have g2 := mul_le_mul_of_nonneg_left x2 h2
    have g3 := mul_le_mul_of_nonneg_left x3 h3
    linarith

theorem clamp01_nonneg (t : ℚ) : 0 ≤ clamp01 t :=
  le_min (le_max_right t 0) zero_le_one

theorem clamp01_mono {x y : ℚ} (h : x ≤ y) : clamp01 x ≤ clamp01 y :=
  min_le_min (max_le_max h (le_refl 0)) (le_refl 1)

theorem XF.rel_nonneg (xf : XF) (f : ℚ) : 0 ≤ XF.rel xf f :=
  mul_nonneg (clamp01_nonneg _) (Nat.cast_nonneg _)

theorem XF.rel_mono (xf : XF) (hdom : xf.loDomain ≤ xf.hiDomain) {x y : ℚ}
    (h : x ≤ y) : XF.rel xf x ≤ XF.rel xf y := by
  unfold XF.rel
  apply mul_le_mul_of_nonneg_right _ (Nat.cast_nonneg _)
  apply clamp01_mono
  rcases lt_or_eq_of_le (sub_nonneg.mpr hdom) with hd | hd
  · rw [div_eq_mul_inv, div_eq_mul_inv]
    exact mul_le_mul_of_nonneg_right (by linarith) (inv_nonneg.mpr (le_of_lt hd))
  · rw [← hd]
    simp

theorem XF.mapOpacity_le_cellMajorant (xf : XF) (a b f : ℚ)
    (hdom : xf.loDomain ≤ xf.hiDomain) (hbase : 0 ≤ xf.baseDensity)
    (haf : a ≤ f) (hfb : f ≤ b) :
    XF.mapOpacity xf f ≤ XF.cellMajorant xf a b := by
  simp only [XF.mapOpacity, XF.cellMajorant]
  have hta : XF.rel xf a ≤ XF.rel xf f := XF.rel_mono xf hdom haf
  have htb : XF.rel xf f ≤ XF.rel xf b := XF.rel_mono xf hdom hfb
  have hiA : Int.toNat ⌊XF.rel xf a⌋ ≤ Int.toNat ⌊XF.rel xf f⌋ :=
    Int.toNat_le_toNat (Int.floor_le_floor hta)
  have hiB : Int.toNat ⌊XF.rel xf f⌋ ≤ Int.toNat ⌊XF.rel xf b⌋ :=
    Int.toNat_le_toNat (Int.floor_le_floor htb)
  have ht0 : 0 ≤ XF.rel xf f := XF.rel_nonneg xf f
  have hfl : (0 : ℤ) ≤ ⌊XF.rel xf f⌋ := Int.floor_nonneg.mpr ht0
  have hcast : ((Int.toNat ⌊XF.rel xf f⌋ : ℕ) : ℚ) = ((⌊XF.rel xf f⌋ : ℤ) : ℚ) := by
    exact_mod_cast congrArg (fun z : ℤ => (z : ℚ)) (Int.toNat_of_nonneg hfl)
  have hfr0 : 0 ≤ XF.rel xf f - ((Int.toNat ⌊XF.rel xf f⌋ : ℕ) : ℚ) := by
    rw [hcast]
    have := Int.floor_le (XF.rel xf f)
    linarith
  have hfr1 : XF.rel xf f - ((Int.toNat ⌊XF.rel xf f⌋ : ℕ) : ℚ) ≤ 1 := by
    rw [hcast]
    have := Int.lt_floor_add_one (XF.rel xf f)
    push_cast at this
    linarith
  have h1 := lerp_le_max (XF.rel xf f - ((Int.toNat ⌊XF.rel xf f⌋ : ℕ) : ℚ))
    (XF.valueAt xf (Int.toNat ⌊XF.rel xf f⌋))
    (XF.valueAt xf (Int.toNat ⌊XF.rel xf f⌋ + 1)) hfr0 hfr1
  have h2 := le_foldMaxW (fun n => XF.valueAt xf n)
    (Int.toNat ⌊XF.rel xf a⌋) (Int.toNat ⌊XF.rel xf b⌋ + 1)
    (Int.toNat ⌊XF.rel xf f⌋) hiA (le_trans hiB (Nat.le_succ _))
  have h3 := le_foldMaxW (fun n => XF.valueAt xf n)
    (Int.toNat ⌊XF.rel xf a⌋) (Int.toNat ⌊XF.rel xf b⌋ + 1)
    (Int.toNat ⌊XF.rel xf f⌋ + 1) (le_trans hiA (Nat.le_succ _))
    (Nat.succ_le_succ hiB)
  exact mul_le_mul_of_nonneg_left (le_trans h1 (max_le h2 h3)) hbase

theorem cellMajorant_le_segmentMajorant (xf : XF) (cells : List (ℚ × ℚ))
    (a b : ℚ) (hmem : (a, b) ∈ cells) :
    XF.cellMajorant xf a b ≤ segmentMajorant xf cells := by
  unfold segmentMajorant
  have := foldl_max_mem (fun ab : ℚ × ℚ => XF.cellMajorant xf ab.1 ab.2)
    cells 0 (a, b) hmem
  simpa using this

theorem woodcock_aux_no_nan_accept (log : ℚ → ℚ) (dd : VolumeDD)
    (org dir : Vec3) (upper majorant : ℚ) (rand : ℕ → ℚ)
    (hM : 0 < majorant) (hr : ∀ j, 0 < rand j) :
    ∀ (fuel i : ℕ) (t : ℚ) (sample : Vec4) (u : ℚ) (s : Vec4),
      Woodcock.sampleRangeAux log dd org dir upper majorant rand fuel i t sample
        = some (true, u, s) →
      dd.sfSample (Vec3.add org (Vec3.smul u dir)) ≠ none := by
  intro fuel
  induction fuel with
  | zero =>
    intro i t sample u s h
    simp [Woodcock.sampleRangeAux] at h
  | succ n ih =>
    intro i t sample u s h
    simp only [Woodcock.sampleRangeAux] at h
    split at h
    · simp at h
    · split at h
      · rename_i hinside hacc
        simp only [Option.some.injEq, Prod.mk.injEq, true_and] at h
        obtain ⟨hu, hs⟩ := h
        intro hnone
        have hz : VolumeDD.sampleAndMap dd (Vec3.add org (Vec3.smul u dir))
            = ⟨0, 0, 0, 0⟩ := by
          unfold VolumeDD.sampleAndMap
          rw [hnone]
        rw [← hu] at hz
        rw [hz] at hacc
        have hpos : 0 < rand (i + 1) * majorant := mul_pos (hr (i + 1)) hM
        simp at hacc
        linarith
      · exact ih (i + 2) _ _ u s h

theorem containsBox_refl (a : Box3) : Box3.containsBox a a :=
  ⟨le_refl _, le_refl _, le_refl _, le_refl _, le_refl _, le_refl _⟩

theorem containsBox_trans {a b c : Box3} (h1 : Box3.containsBox a b)
    (h2 : Box3.containsBox b c) : Box3.containsBox a c := by
  obtain ⟨p1, p2, p3, p4, p5, p6⟩ := h1
  obtain ⟨q1, q2, q3, q4, q5, q6⟩ := h2
  exact ⟨le_trans p1 q1, le_trans p2 q2, le_trans p3 q3,
    le_trans q4 p4, le_trans q5 p5, le_trans q6 p6⟩

theorem insert_containsBox_left (a w : Box3) :
    Box3.containsBox (Box3.insert a w) a :=
  ⟨min_le_left _ _, min_le_left _ _, min_le_left _ _,
   le_max_left _ _, le_max_left _ _, le_max_left _ _⟩

theorem insert_containsBox_right (a w : Box3) :
    Box3.containsBox (Box3.insert a w) w :=
  ⟨min_le_right _ _, min_le_right _ _, min_le_right _ _,
   le_max_right _ _, le_max_right _ _, le_max_right _ _⟩

theorem foldl_insert_containsBox_init {α : Type} (g : α → Box3) (l : List α) :
    ∀ acc : Box3,
      Box3.containsBox (l.foldl (fun x b => Box3.insert x (g b)) acc) acc := by
  induction l with
  | nil => intro acc; exact containsBox_refl acc
  | cons x xs ih =>
    intro acc
    exact containsBox_trans (ih (Box3.insert acc (g x)))
      (insert_containsBox_left acc (g x))

theorem foldl_insert_containsBox_mem {α : Type} (g : α → Box3) (l : List α) :
    ∀ (acc : Box3) (b : α), b ∈ l →
      Box3.containsBox (l.foldl (fun x q => Box3.insert x (g q)) acc) (g b) := by
  induction l with
  | nil => intro acc b hb; cases hb
  | cons x xs ih =>
    intro acc b hb
    rcases List.mem_cons.mp hb with h | h
    · subst h
      exact containsBox_trans (foldl_insert_containsBox_init g xs (Box3.insert acc (g b)))
        (insert_containsBox_right acc (g b))
    · exact ih (Box3.insert acc (g x)) b h

theorem amr_finalize_mBounds (blocks : List AMRBlock) :
    ∀ st : AMRState,
      (blocks.foldl BlockStructuredField.finalizeStep st).mBounds
        = blocks.foldl (fun acc b => Box3.insert acc (AMRBlock.worldBounds b))
            st.mBounds := by
  induction blocks with
  | nil => intro st; rfl
  | cons x xs ih =>
    intro st
    rw [List.foldl_cons, List.foldl_cons, ih]
    rfl

/-! ## Claim theorems -/

/-- Claim C1: the claim states that Woodcock::sampleRange returns "no
interaction" (false) for every majorant <= 0.  The code has no
majorant <= 0 short-circuit: evaluating the embedded sampleRange at
majorant = -1 over the segment 0..1 (with a sampler of opacity 0 and
every random draw 1/2, the abstract log instantiated with a function
that, like the real logarithm, is nonpositive on (0, 1]) returns an
accepted interaction on the first loop iteration, because the acceptance
test sample.w >= rand() * majorant holds whenever majorant is negative
and the opacity is nonnegative. -/
theorem woodcock_negative_majorant_accepts_interaction :
    Woodcock.sampleRange (fun x => x - 1)
      ⟨fun _ => some 0, fun f => ⟨0, 0, 0, f⟩⟩
      ⟨0, 0, 0⟩ ⟨0, 0, 1⟩ 0 1 (-1) (fun _ => 1 / 2) 5
      = some (true, -(1 / 2), ⟨0, 0, 0, 0⟩) := by
  simp only [Woodcock.sampleRange, Woodcock.sampleRangeAux, VolumeDD.sampleAndMap]
  norm_num

/-- Claim C2, counterexample: with majorant = 1 > 0 and the random
sequence drawing exactly 0 at the acceptance test (index 1), the embedded
sampleRange accepts an interaction at a point where the scalar-field
sampler returns NaN (modelled as none): the mapped opacity is 0 and the
acceptance comparison is 0 >= 0 * majorant, which holds.  This refutes
"never accepts that point as an interaction, for every random
sequence". -/
theorem woodcock_zero_draw_accepts_nan_point :
    Woodcock.sampleRange (fun x => x - 1)
      ⟨fun _ => none, fun f => ⟨f, f, f, f⟩⟩
      ⟨0, 0, 0⟩ ⟨0, 0, 1⟩ 0 1 1 (fun i => if i = 1 then 0 else 1 / 2) 5
      = some (true, 1 / 2, ⟨0, 0, 0, 0⟩) ∧
    (⟨fun _ => none, fun f => ⟨f, f, f, f⟩⟩ : VolumeDD).sfSample
      (Vec3.add ⟨0, 0, 0⟩ (Vec3.smul (1 / 2) ⟨0, 0, 1⟩)) = none := by
  constructor
  · simp only [Woodcock.sampleRange, Woodcock.sampleRangeAux, VolumeDD.sampleAndMap]
    norm_num
  · rfl

/-- Claim C2 (amended): for every sample point where the scalar field
sampler returns NaN, Volume::DD::sampleAndMap returns the zero vec4f;
and Woodcock::sampleRange never accepts a NaN point as an interaction
for every majorant > 0 and every random sequence all of whose draws are
strictly positive (a draw of exactly 0 at the acceptance test accepts
the zero-opacity point, since the comparison is >=). -/
theorem nan_sample_zero_and_never_accepted :
    (∀ (dd : VolumeDD) (P : Vec3), dd.sfSample P = none →
      VolumeDD.sampleAndMap dd P = ⟨0, 0, 0, 0⟩) ∧
    (∀ (log : ℚ → ℚ) (dd : VolumeDD) (org dir : Vec3)
        (tLower tUpper majorant : ℚ) (rand : ℕ → ℚ) (fuel : ℕ)
        (u : ℚ) (s : Vec4),
      0 < majorant → (∀ j, 0 < rand j) →
      Woodcock.sampleRange log dd org dir tLower tUpper majorant rand fuel
        = some (true, u, s) →
      dd.sfSample (Vec3.add org (Vec3.smul u dir)) ≠ none) := by
  constructor
  · intro dd P h
    unfold VolumeDD.sampleAndMap
    rw [h]
  · intro log dd org dir tLower tUpper majorant rand fuel u s hM hr h
    exact woodcock_aux_no_nan_accept log dd org dir tUpper majorant rand hM hr
      fuel 0 tLower ⟨0, 0, 0, 0⟩ u s h

/-- Witness for the amended claim C2, at concrete inputs: a sampler that
is NaN everywhere maps to the zero vec4f; and a concrete accepting run
(constant sampler value 1, majorant 1, all draws 1/2) accepts only at a
point where the sampler is not NaN. -/
theorem nan_sample_zero_and_never_accepted_witness :
    VolumeDD.sampleAndMap ⟨fun _ => none, fun f => ⟨f, f, f, f⟩⟩ ⟨0, 0, 0⟩
      = ⟨0, 0, 0, 0⟩ ∧
    (⟨fun _ => some 1, fun f => ⟨0, 0, 0, f⟩⟩ : VolumeDD).sfSample
      (Vec3.add ⟨0, 0, 0⟩ (Vec3.smul (1 / 2) ⟨0, 0, 1⟩)) ≠ none :=
  ⟨nan_sample_zero_and_never_accepted.1 ⟨fun _ => none, fun f => ⟨f, f, f, f⟩⟩
      ⟨0, 0, 0⟩ rfl,
   nan_sample_zero_and_never_accepted.2 (fun x => x - 1)
      ⟨fun _ => some 1, fun f => ⟨0, 0, 0, f⟩⟩ ⟨0, 0, 0⟩ ⟨0, 0, 1⟩ 0 1 1
      (fun _ => 1 / 2) 3 (1 / 2) ⟨0, 0, 0, 1⟩ (by norm_num)
      (fun j => by norm_num)
      (by
        simp only [Woodcock.sampleRange, Woodcock.sampleRangeAux,
          VolumeDD.sampleAndMap]
        norm_num)⟩

/-- Claim C4: the claim states commitParameters and finalize are total
when the required 'data' parameter is absent.  The embedded
commitParameters evaluates m_data->size() unconditionally
(SpatialField.cpp line 55) and hence crashes (returns none) on the
parameter store without 'data'; finalize alone would report the warning,
leave the field invalid and give empty bounds, as the remaining three
conjuncts record. -/
theorem structured_missing_data_commit_crashes :
    StructuredRegularField.commitParameters ⟨none, none, none⟩
      ⟨none, ⟨0, 0, 0⟩, ⟨1, 1, 1⟩, ⟨0, 0, 0⟩, ⟨0, 0, 0⟩⟩ = none ∧
    (StructuredRegularField.finalize
      ⟨none, ⟨0, 0, 0⟩, ⟨1, 1, 1⟩, ⟨0, 0, 0⟩, ⟨0, 0, 0⟩⟩).1
      = [⟨Severity.warning, Diag.missingStructuredData⟩] ∧
    StructuredRegularField.isValid
      ⟨none, ⟨0, 0, 0⟩, ⟨1, 1, 1⟩, ⟨0, 0, 0⟩, ⟨0, 0, 0⟩⟩ = false ∧
    StructuredRegularField.bounds
      ⟨none, ⟨0, 0, 0⟩, ⟨1, 1, 1⟩, ⟨0, 0, 0⟩, ⟨0, 0, 0⟩⟩ = Box3.empty := by
  refine ⟨rfl, rfl, rfl, ?_⟩
  decide

/-- Claim C5: the claim states that a UINT64 'index' buffer makes
finalize report an error and abort.  In the embedded finalize (mirroring
SpatialField.cpp lines 213-225) the UINT64 branch reports the
error-severity diagnostic but does not return: the function runs to
completion (ranToCompletion = true) and, under the spec's isValid
default, the field counts as valid and can go on to be used with the
64-bit indices reinterpreted as 32-bit by createBarneyScalarField. -/
theorem unstructured_uint64_index_error_without_abort :
    UnstructuredField.finalize
      ⟨some (AType.float32Vec3, [⟨0, 0, 0⟩]), some AType.float32, none,
       some AType.uint64, some AType.uint8, some AType.uint32⟩ Box3.empty
      = ⟨[⟨Severity.error, Diag.only32BitIndicesOnIndex⟩], true,
         ⟨⟨0, 0, 0⟩, ⟨0, 0, 0⟩⟩⟩ ∧
    UnstructuredField.isValidModelled
      (UnstructuredField.finalize
        ⟨some (AType.float32Vec3, [⟨0, 0, 0⟩]), some AType.float32, none,
         some AType.uint64, some AType.uint8, some AType.uint32⟩ Box3.empty)
      = true := by
  constructor
  · decide
  · decide

/-- Claim C6: an unstructured field committed with both 'vertex.data' and
'cell.data' set fails finalize with a diagnostic (the both-present
warning, mirroring SpatialField.cpp lines 174-179), returns before
touching m_bounds, and the field remains invalid (isValid modelled from
the spec as "finalize succeeded"). -/
theorem unstructured_both_data_fails_and_invalid
    (p : UParams) (b0 : Box3) (verts : List Vec3)
    (hpos : p.vertexPosition = some (AType.float32Vec3, verts))
    (hvd : p.vertexData.isSome = true) (hcd : p.cellData.isSome = true) :
    (UnstructuredField.finalize p b0).msgs
      = [⟨Severity.warning, Diag.bothVertexAndCellData⟩] ∧
    (UnstructuredField.finalize p b0).ranToCompletion = false ∧
    UnstructuredField.isValidModelled (UnstructuredField.finalize p b0) = false ∧
    (UnstructuredField.finalize p b0).mBounds = b0 := by
  obtain ⟨vd, hvd2⟩ := Option.isSome_iff_exists.mp hvd
  obtain ⟨cd, hcd2⟩ := Option.isSome_iff_exists.mp hcd
  simp [UnstructuredField.finalize, UnstructuredField.isValidModelled,
    hpos, hvd2, hcd2]

/-- Witness for claim C6 at a concrete parameter set with both scalar
arrays present. -/
theorem unstructured_both_data_fails_and_invalid_witness :
    (UnstructuredField.finalize
      ⟨some (AType.float32Vec3, []), some AType.float32, some AType.float32,
       none, none, none⟩ Box3.empty).msgs
      = [⟨Severity.warning, Diag.bothVertexAndCellData⟩] ∧
    (UnstructuredField.finalize
      ⟨some (AType.float32Vec3, []), some AType.float32, some AType.float32,
       none, none, none⟩ Box3.empty).ranToCompletion = false ∧
    UnstructuredField.isValidModelled
      (UnstructuredField.finalize
        ⟨some (AType.float32Vec3, []), some AType.float32, some AType.float32,
         none, none, none⟩ Box3.empty) = false ∧
    (UnstructuredField.finalize
      ⟨some (AType.float32Vec3, []), some AType.float32, some AType.float32,
       none, none, none⟩ Box3.empty).mBounds = Box3.empty :=
  unstructured_both_data_fails_and_invalid
    ⟨some (AType.float32Vec3, []), some AType.float32, some AType.float32,
     none, none, none⟩ Box3.empty [] rfl rfl rfl

/-- Claim C7: for every finalized AMR field, bounds() equals the union
over all blocks of the block's integer bounds scaled by 2^level (first
conjunct, against the definition written from the spec words); and each
block contributes the world-space box lower * 2^level to
(upper+1) * 2^level, i.e. that box is contained in the returned bounds
(second conjunct). -/
theorem amr_bounds_eq_union_of_scaled_blocks :
    (∀ blocks : List AMRBlock,
      BlockStructuredField.bounds (BlockStructuredField.finalize blocks)
        = specUnionOfScaledBlockBounds blocks) ∧
    (∀ (blocks : List AMRBlock) (b : AMRBlock), b ∈ blocks →
      Box3.containsBox
        (BlockStructuredField.bounds (BlockStructuredField.finalize blocks))
        (AMRBlock.worldBounds b)) := by
  have key : ∀ blocks : List AMRBlock,
      BlockStructuredField.bounds (BlockStructuredField.finalize blocks)
        = blocks.foldl (fun acc b => Box3.insert acc (AMRBlock.worldBounds b))
            Box3.empty := by
    intro blocks
    unfold BlockStructuredField.bounds BlockStructuredField.finalize
    exact amr_finalize_mBounds blocks ⟨[], [], [], [], Box3.empty⟩
  constructor
  · intro blocks
    rw [key blocks]
    rfl
  · intro blocks b hb
    rw [key blocks]
    exact foldl_insert_containsBox_mem AMRBlock.worldBounds blocks Box3.empty b hb

/-- Witness for claim C7: two concrete blocks at levels 0 and 1; the
first block's scaled box is contained in the total bounds. -/
theorem amr_bounds_witness :
    Box3.containsBox
      (BlockStructuredField.bounds (BlockStructuredField.finalize
        [⟨⟨0, 0, 0⟩, ⟨1, 1, 1⟩, 0, []⟩, ⟨⟨-1, -1, -1⟩, ⟨0, 0, 0⟩, 1, []⟩]))
      (AMRBlock.worldBounds ⟨⟨0, 0, 0⟩, ⟨1, 1, 1⟩, 0, []⟩) :=
  amr_bounds_eq_union_of_scaled_blocks.2
    [⟨⟨0, 0, 0⟩, ⟨1, 1, 1⟩, 0, []⟩, ⟨⟨-1, -1, -1⟩, ⟨0, 0, 0⟩, 1, []⟩]
    ⟨⟨0, 0, 0⟩, ⟨1, 1, 1⟩, 0, []⟩ (List.mem_cons_self _ _)

/-- Claim C3: macrocell ranges are conservative and majorants never
underestimate (all modelled from the spec, sections 3, 4.2, 4.6, since
the MCGrid build kernels and the transfer function are not among the
sources).  Conjunct 1: for a grid-backed field, the trilinear sample at
any point inside a macrocell (lattice cell i,j,k with fractional weights
in 0..1, covered by the macrocell's corner range) lies within the
macrocell's recorded min/max.  Conjunct 2: for a mesh-backed field, the
barycentric sample inside any primitive binned into a macrocell lies
within the cell's recorded range.  Conjunct 3: for any scalar value
inside the recorded range of any macrocell overlapped by a ray segment,
the transfer-function-mapped opacity density is at most the segment
majorant.  Conjunct 4 composes 1 and 3: the mapped opacity density of
the grid-backed field value at any point of the queried region never
exceeds the segment majorant. -/
theorem mcgrid_conservative_and_majorant_never_underestimates :
    (∀ (f : ℕ → ℕ → ℕ → ℚ) (x0 x1 y0 y1 z0 z1 i j k : ℕ) (tx ty tz : ℚ),
      x0 ≤ i → i + 1 ≤ x1 → y0 ≤ j → j + 1 ≤ y1 → z0 ≤ k → k + 1 ≤ z1 →
      0 ≤ tx → tx ≤ 1 → 0 ≤ ty → ty ≤ 1 → 0 ≤ tz → tz ≤ 1 →
      mcMin f x0 x1 y0 y1 z0 z1 ≤ trilinear f i j k tx ty tz ∧
      trilinear f i j k tx ty tz ≤ mcMax f x0 x1 y0 y1 z0 z1) ∧
    (∀ (prims : List TetScalars) (p : TetScalars) (l0 l1 l2 l3 : ℚ),
      p ∈ prims → 0 ≤ l0 → 0 ≤ l1 → 0 ≤ l2 → 0 ≤ l3 →
      l0 + l1 + l2 + l3 = 1 →
      meshCellMin prims ≤ tetInterp p l0 l1 l2 l3 ∧
      tetInterp p l0 l1 l2 l3 ≤ meshCellMax prims) ∧
    (∀ (xf : XF) (cells : List (ℚ × ℚ)) (a b fval : ℚ),
      xf.loDomain ≤ xf.hiDomain → 0 ≤ xf.baseDensity → (a, b) ∈ cells →
      a ≤ fval → fval ≤ b →
      XF.mapOpacity xf fval ≤ segmentMajorant xf cells) ∧
    (∀ (f : ℕ → ℕ → ℕ → ℚ) (x0 x1 y0 y1 z0 z1 i j k : ℕ) (tx ty tz : ℚ)
        (xf : XF) (cells : List (ℚ × ℚ)),
      x0 ≤ i → i + 1 ≤ x1 → y0 ≤ j → j + 1 ≤ y1 → z0 ≤ k → k + 1 ≤ z1 →
      0 ≤ tx → tx ≤ 1 → 0 ≤ ty → ty ≤ 1 → 0 ≤ tz → tz ≤ 1 →
      xf.loDomain ≤ xf.hiDomain → 0 ≤ xf.baseDensity →
      (mcMin f x0 x1 y0 y1 z0 z1, mcMax f x0 x1 y0 y1 z0 z1) ∈ cells →
      XF.mapOpacity xf (trilinear f i j k tx ty tz)
        ≤ segmentMajorant xf cells) := by
  have hxf : ∀ (xf : XF) (cells : List (ℚ × ℚ)) (a b fval : ℚ),
      xf.loDomain ≤ xf.hiDomain → 0 ≤ xf.baseDensity → (a, b) ∈ cells →
      a ≤ fval → fval ≤ b →
      XF.mapOpacity xf fval ≤ segmentMajorant xf cells := by
    intro xf cells a b fval hdom hbase hmem haf hfb
    exact le_trans (XF.mapOpacity_le_cellMajorant xf a b fval hdom hbase haf hfb)
      (cellMajorant_le_segmentMajorant xf cells a b hmem)
  refine ⟨?_, ?_, hxf, ?_⟩
  · intro f x0 x1 y0 y1 z0 z1 i j k tx ty tz h1 h2 h3 h4 h5 h6 h7 h8 h9 h10 h11 h12
    exact trilinear_bounds f x0 x1 y0 y1 z0 z1 i j k tx ty tz
      h1 h2 h3 h4 h5 h6 h7 h8 h9 h10 h11 h12
  · intro prims p l0 l1 l2 l3 hp h0 h1 h2 h3 hsum
    have hb := tetInterp_bounds p l0 l1 l2 l3 h0 h1 h2 h3 hsum
    exact ⟨le_trans (meshCellMin_le prims p hp) hb.1,
      le_trans hb.2 (le_meshCellMax prims p hp)⟩
  · intro f x0 x1 y0 y1 z0 z1 i j k tx ty tz xf cells
      h1 h2 h3 h4 h5 h6 h7 h8 h9 h10 h11 h12 hdom hbase hmem
    have hb := trilinear_bounds f x0 x1 y0 y1 z0 z1 i j k tx ty tz
      h1 h2 h3 h4 h5 h6 h7 h8 h9 h10 h11 h12
    exact hxf xf cells _ _ _ hdom hbase hmem hb.1 hb.2

/-- Witness for claim C3 at concrete inputs: a small grid field, a
single-tet mesh cell, and a two-point transfer function over domain
0..1 with base density 1. -/
theorem mcgrid_conservative_witness :
    (mcMin (fun x y z => ((x + y + z : ℕ) : ℚ)) 0 1 0 1 0 1
        ≤ trilinear (fun x y z => ((x + y + z : ℕ) : ℚ)) 0 0 0
            (1 / 2) (1 / 2) (1 / 2) ∧
      trilinear (fun x y z => ((x + y + z : ℕ) : ℚ)) 0 0 0
          (1 / 2) (1 / 2) (1 / 2)
        ≤ mcMax (fun x y z => ((x + y + z : ℕ) : ℚ)) 0 1 0 1 0 1) ∧
    (meshCellMin [⟨1, 2, 3, 4⟩]
        ≤ tetInterp ⟨1, 2, 3, 4⟩ (1 / 4) (1 / 4) (1 / 4) (1 / 4) ∧
      tetInterp ⟨1, 2, 3, 4⟩ (1 / 4) (1 / 4) (1 / 4) (1 / 4)
        ≤ meshCellMax [⟨1, 2, 3, 4⟩]) ∧
    (XF.mapOpacity ⟨2, fun n => if n = 0 then 0 else 1, 0, 1, 1⟩ (1 / 2)
        ≤ segmentMajorant ⟨2, fun n => if n = 0 then 0 else 1, 0, 1, 1⟩
            [(0, 1)]) ∧
    (XF.mapOpacity ⟨2, fun n => if n = 0 then 0 else 1, 0, 1, 1⟩
        (trilinear (fun x y z => ((x + y + z : ℕ) : ℚ)) 0 0 0
          (1 / 2) (1 / 2) (1 / 2))
        ≤ segmentMajorant ⟨2, fun n => if n = 0 then 0 else 1, 0, 1, 1⟩
            [(mcMin (fun x y z => ((x + y + z : ℕ) : ℚ)) 0 1 0 1 0 1,
              mcMax (fun x y z => ((x + y + z : ℕ) : ℚ)) 0 1 0 1 0 1)]) :=
  ⟨mcgrid_conservative_and_majorant_never_underestimates.1
      (fun x y z => ((x + y + z : ℕ) : ℚ)) 0 1 0 1 0 1 0 0 0
      (1 / 2) (1 / 2) (1 / 2)
      (by norm_num) (by norm_num) (by norm_num) (by norm_num) (by norm_num)
      (by norm_num) (by norm_num) (by norm_num) (by norm_num) (by norm_num)
      (by norm_num) (by norm_num),
   mcgrid_conservative_and_majorant_never_underestimates.2.1
      [⟨1, 2, 3, 4⟩] ⟨1, 2, 3, 4⟩ (1 / 4) (1 / 4) (1 / 4) (1 / 4)
      (List.mem_cons_self _ _) (by norm_num) (by norm_num) (by norm_num)
      (by norm_num) (by norm_num),
   mcgrid_conservative_and_majorant_never_underestimates.2.2.1
      ⟨2, fun n => if n = 0 then 0 else 1, 0, 1, 1⟩ [(0, 1)] 0 1 (1 / 2)
      (by norm_num) (by norm_num) (List.mem_cons_self _ _) (by norm_num)
      (by norm_num),
   mcgrid_conservative_and_majorant_never_underestimates.2.2.2
      (fun x y z => ((x + y + z : ℕ) : ℚ)) 0 1 0 1 0 1 0 0 0
      (1 / 2) (1 / 2) (1 / 2)
      ⟨2, fun n => if n = 0 then 0 else 1, 0, 1, 1⟩
      [(mcMin (fun x y z => ((x + y + z : ℕ) : ℚ)) 0 1 0 1 0 1,
        mcMax (fun x y z => ((x + y + z : ℕ) : ℚ)) 0 1 0 1 0 1)]
      (by norm_num) (by norm_num) (by norm_num) (by norm_num) (by norm_num)
      (by norm_num) (by norm_num) (by norm_num) (by norm_num) (by norm_num)
      (by norm_num) (by norm_num) (by norm_num) (by norm_num)
      (List.mem_cons_self _ _)⟩

/-- Claim C8, counterexample: with sphereRadius = 1 and a negative
maxHeight (atmosphereThickness) of -1, the point at distance 2 lies
outside the (empty) shell from radius to radius + thickness, yet the
sampler returns the texture density 5, not 0: the clamp sends the
negative height ratio to 0, so neither zero-branch fires.  This refutes
the "for all radius/height parameters ... zero everywhere outside the
shell" reading of the claim. -/
theorem cloud_negative_thickness_nonzero_outside_shell :
    CloudSamplerDD.sample ⟨fun _ _ => 5, 1, -1⟩ 2 0 0 = 5 ∧
    ¬((2 : ℚ) ≤ 1 + (-1)) ∧ ¬((2 : ℚ) < 1) := by
  refine ⟨?_, by norm_num, by norm_num⟩
  simp only [CloudSamplerDD.sample, clamp01]
  norm_num

/-- Claim C8 (amended): the cloud sampler returns exactly 0 whenever the
distance is below the sphere radius or the computed normalized height
(clamped height ratio) reaches 1, for all parameters (conjunct 1); and
the density is zero everywhere outside the shell from sphereRadius to
sphereRadius + maxHeight provided the thickness maxHeight is positive
(conjunct 2; for nonpositive thickness the clamp maps the height ratio
to 0 and the texture is sampled, as the counterexample shows). -/
theorem cloud_sample_zero_outside_shell :
    (∀ (dd : CloudSamplerDD) (dist u v : ℚ),
      (dist < dd.sphereRadius ∨
        clamp01 (max 0 (dist - dd.sphereRadius) / dd.maxHeight) ≥ 1) →
      CloudSamplerDD.sample dd dist u v = 0) ∧
    (∀ (dd : CloudSamplerDD) (dist u v : ℚ),
      0 < dd.maxHeight →
      (dist < dd.sphereRadius ∨ dist ≥ dd.sphereRadius + dd.maxHeight) →
      CloudSamplerDD.sample dd dist u v = 0) := by
  have part1 : ∀ (dd : CloudSamplerDD) (dist u v : ℚ),
      (dist < dd.sphereRadius ∨
        clamp01 (max 0 (dist - dd.sphereRadius) / dd.maxHeight) ≥ 1) →
      CloudSamplerDD.sample dd dist u v = 0 := by
    intro dd dist u v h
    simp only [CloudSamplerDD.sample]
    exact if_pos h
  refine ⟨part1, ?_⟩
  intro dd dist u v hmh hcase
  apply part1
  rcases hcase with h | h
  · exact Or.inl h
  · right
    have hx : (1 : ℚ) ≤ max 0 (dist - dd.sphereRadius) / dd.maxHeight := by
      rw [le_div_iff₀ hmh]
      have h2 : max 0 (dist - dd.sphereRadius) = dist - dd.sphereRadius :=
        max_eq_right (by linarith)
      rw [h2]
      linarith
    have : (1 : ℚ) ≤ clamp01 (max 0 (dist - dd.sphereRadius) / dd.maxHeight) := by
      unfold clamp01
      exact le_min (le_trans hx (le_max_left _ _)) (le_refl 1)
    exact this

/-- Witness for the amended claim C8: a point below the sphere radius
samples to 0, and with positive thickness a point beyond the shell
samples to 0. -/
theorem cloud_sample_zero_witness :
    CloudSamplerDD.sample ⟨fun _ _ => 5, 1, 1 / 5⟩ (1 / 2) 0 0 = 0 ∧
    CloudSamplerDD.sample ⟨fun _ _ => 5, 1, 1 / 5⟩ 2 0 0 = 0 :=
  ⟨cloud_sample_zero_outside_shell.1 ⟨fun _ _ => 5, 1, 1 / 5⟩ (1 / 2) 0 0
      (Or.inl (by norm_num)),
   cloud_sample_zero_outside_shell.2 ⟨fun _ _ => 5, 1, 1 / 5⟩ 2 0 0
      (by norm_num) (Or.inr (by norm_num))⟩

/-- Claim C9: conjunct 1: two consecutive calls to getBarneyScalarField
with no intervening parameter change return the identical backend handle
and leave the state unchanged (the second call is a no-op, regardless of
what handle a second createBarneyScalarField call would have produced);
conjunct 2: re-committing a cloud field with values equal to the
previously committed ones keeps the cached backend field (cleanup is not
called). -/
theorem rebuild_idempotent_and_cloud_cache_preserved :
    (∀ (s : SFState) (f1 f2 : ℕ),
      (SpatialField.getBarneyScalarField f2
        (SpatialField.getBarneyScalarField f1 s).2).1
        = (SpatialField.getBarneyScalarField f1 s).1 ∧
      (SpatialField.getBarneyScalarField f2
        (SpatialField.getBarneyScalarField f1 s).2).2
        = (SpatialField.getBarneyScalarField f1 s).2) ∧
    (∀ (ps : CloudParamStore) (s : CloudSFState),
      ps.cloudData = s.cloudData →
      ps.planetRadius.getD (9 / 10) = s.planetRadius →
      ps.atmosphereThickness.getD (1 / 100) = s.atmosphereThickness →
      (CloudSpatialField.commitParameters ps s).mBnField = s.mBnField) := by
  constructor
  · intro s f1 f2
    rcases s with ⟨valid, bn⟩
    cases valid <;> cases bn <;>
      simp [SpatialField.getBarneyScalarField]
  · intro ps s h1 h2 h3
    simp only [CloudSpatialField.commitParameters]
    rw [h1, h2, h3]
    simp

/-- Witness for claim C9: re-committing a cloud field whose parameter
store repeats the committed values keeps the cached backend handle. -/
theorem rebuild_idempotent_witness :
    (CloudSpatialField.commitParameters
      ⟨some 7, some (9 / 10), some (1 / 100)⟩
      ⟨some 7, 9 / 10, 1 / 100, some 3⟩).mBnField = some 3 :=
  rebuild_idempotent_and_cloud_cache_preserved.2
    ⟨some 7, some (9 / 10), some (1 / 100)⟩
    ⟨some 7, 9 / 10, 1 / 100, some 3⟩ rfl rfl rfl

/-- Claim C10: the planet layer thresholds are the absolute constants
0.127, 0.347 and 0.632 (not scaled by planetRadius) in the embedded
sampler; whenever planetRadius <= 0.632 the branch returning the 0.8
between-core-and-surface density is unreachable (it would need
dist >= mantleRadius = 0.632 and dist < planetRadius at once), so the
sampler only returns 0.02, 0.04, 0.06, 0.1 + 0.8 * elevation, or 0. -/
theorem planet_unreachable_interior_branch
    (dd : PlanetSamplerDD) (dist u v : ℚ)
    (hr : dd.planetRadius ≤ 632 / 1000) :
    PlanetSamplerDD.sample dd dist u v = 2 / 100 ∨
    PlanetSamplerDD.sample dd dist u v = 4 / 100 ∨
    PlanetSamplerDD.sample dd dist u v = 6 / 100 ∨
    PlanetSamplerDD.sample dd dist u v
      = 1 / 10 + 8 / 10 * dd.elevationTex u v ∨
    PlanetSamplerDD.sample dd dist u v = 0 := by
  simp only [PlanetSamplerDD.sample]
  split_ifs with h1 h2 h3 h4 h5
  · simp
  · simp
  · simp
  · exfalso
    push_neg at h3
    linarith
  · simp
  · simp

/-- Witness for claim C10 at the default planetRadius 0.5 (which is at
most 0.632) and a core point at distance 0. -/
theorem planet_unreachable_interior_branch_witness :
    ((1 : ℚ) / 2 ≤ 632 / 1000) ∧
    (PlanetSamplerDD.sample ⟨fun _ _ => 0, 1 / 10, 1 / 2⟩ 0 0 0 = 2 / 100 ∨
     PlanetSamplerDD.sample ⟨fun _ _ => 0, 1 / 10, 1 / 2⟩ 0 0 0 = 4 / 100 ∨
     PlanetSamplerDD.sample ⟨fun _ _ => 0, 1 / 10, 1 / 2⟩ 0 0 0 = 6 / 100 ∨
     PlanetSamplerDD.sample ⟨fun _ _ => 0, 1 / 10, 1 / 2⟩ 0 0 0
       = 1 / 10 + 8 / 10 *
          (⟨fun _ _ => 0, 1 / 10, 1 / 2⟩ : PlanetSamplerDD).elevationTex 0 0 ∨
     PlanetSamplerDD.sample ⟨fun _ _ => 0, 1 / 10, 1 / 2⟩ 0 0 0 = 0) :=
  ⟨by norm_num,
   planet_unreachable_interior_branch ⟨fun _ _ => 0, 1 / 10, 1 / 2⟩ 0 0 0
     (by norm_num)⟩
